import Mathlib

/-!
Verification of the FAT read-only driver (fat-fuse).

This file gives a shallow embedding of the core FAT reader (the `lib_fat`
crate: `fat_struct.rs`, `fat_helper.rs`, `fat_dir.rs`, `fat_reserved.rs`,
`lib.rs`) and proves or refutes the frozen claims about it.

Modelling conventions:
* Machine integers are `Nat` with an explicit `% 2^w` at the points where the
  Rust arithmetic can wrap (release-mode semantics).
* The backing disk image is a byte function together with its length; a
  `read_exact` that would run past the end of the file is a panic.
* `HashMap` fields of the `Fat` struct are modelled as functions
  `Nat → Option _` (lookup), updated pointwise (insert).
* Every Rust panic (`unwrap`, `expect`, slice out of bounds, `assert!`) is
  modelled by returning `none`; fallible functions therefore return `Option`.
* Loops whose termination depends on disk contents (FAT chain walks) take an
  explicit fuel argument; exhausting the fuel also yields `none`.
* `String::from_utf8(..).unwrap()` and `decode_utf16` are modelled on lists
  of scalar values (`List Nat`), producing lists of Unicode code points.
* Large `Vec<u8>` buffers (whole clusters, chains, directory regions) are
  modelled by `Bytes`, a byte-indexing function paired with the length; small
  fixed-size buffers (one 32-byte entry, one FAT sector) stay `List Nat`.
-/

/-- A `Vec<u8>` of bytes, represented by its indexing function and its
length (values of `byte` at indices at or beyond `len` are irrelevant). -/
structure Bytes where
  byte : Nat → Nat
  len : Nat

/-- The empty byte vector. -/
def Bytes.empty : Bytes where
  byte := fun _ => 0
  len := 0

/-- View a byte list as a byte vector. -/
def Bytes.ofList (l : List Nat) : Bytes where
  byte := fun i => l.getD i 0
  len := l.length

/-- `Vec::extend` / `Vec::append`: concatenation of byte vectors. -/
def Bytes.append (b1 b2 : Bytes) : Bytes where
  byte := fun i => if i < b1.len then b1.byte i else b2.byte (i - b1.len)
  len := b1.len + b2.len

/-- The list of `len` bytes of `b` starting at index `start` (a slice
`b[start..start+len]` turned into a `Vec`). -/
def Bytes.extract (b : Bytes) (start len : Nat) : List Nat :=
  (List.range len).map fun k => b.byte (start + k)

/-- The whole byte vector as a list. -/
def Bytes.toList (b : Bytes) : List Nat := b.extract 0 b.len

/-- Rust indexing `b[i]`: the byte at `i`, or `none` (a panic) when `i` is
out of bounds. -/
def Bytes.get? (b : Bytes) (i : Nat) : Option Nat :=
  if i < b.len then some (b.byte i) else none

/-- FAT type tag, from `fat_struct.rs`. -/
inductive FatType where
  | Fat12 : FatType
  | Fat16 : FatType
  | Fat32 : FatType
deriving DecidableEq

/-- Boot sector fields, from `fat_struct.rs` (`FatBs`). -/
structure FatBs where
  jump : List Nat
  oem_name : List Nat
deriving DecidableEq

/-- BIOS parameter block, from `fat_struct.rs` (`FatBpb`). -/
structure FatBpb where
  bytes_per_sector : Nat
  sectors_per_cluster : Nat
  reserved_clusters : Nat
  num_fats : Nat
  root_entry_count : Nat
  total_sectors_16 : Nat
  media_descriptor : Nat
  fat_size_16 : Nat
  sectors_per_track : Nat
  heads : Nat
  hidden_sectors_count : Nat
  total_sectors_32 : Nat
deriving DecidableEq

/-- FAT12/16 extended BPB, from `fat_struct.rs` (`FatEbpb`). -/
structure FatEbpb where
  drive_number : Nat
  reserved : Nat
  boot_signature : Nat
  volume_id : List Nat
  volume_label : List Nat
  fs_type : List Nat
deriving DecidableEq

/-- FAT32 extended BPB, from `fat_struct.rs` (`Fat32Ebpb`). -/
structure Fat32Ebpb where
  fat_size_32 : Nat
  flags : Nat
  version : Nat
  root_cluster : Nat
  fsinfo_sector : Nat
  backup_sector : Nat
  reserved : List Nat
  drive_number : Nat
  reserved_flags : Nat
  signature : Nat
  volume_id : List Nat
  volume_label : List Nat
  fs_type : List Nat
deriving DecidableEq

/-- A 32-byte short directory entry, from `fat_struct.rs`
(`FatDirectoryEntry`); the source field `attribute` is a Lean keyword and is
rendered `attr` here. -/
structure FatDirectoryEntry where
  name : List Nat
  attr : Nat
  nt_reserved : Nat
  created_time_tenth : Nat
  created_time : Nat
  created_date : Nat
  last_accessed : Nat
  first_cluster_hi : Nat
  write_time : Nat
  write_date : Nat
  first_cluster_low : Nat
  size : Nat
deriving DecidableEq

/-- A 32-byte long-name directory entry, from `fat_struct.rs`
(`FatLongDirectoryEntry`). -/
structure FatLongDirectoryEntry where
  order : Nat
  name1 : List Nat
  attr : Nat
  dir_type : Nat
  checksum : Nat
  name2 : List Nat
  first_cluster_low : Nat
  name3 : List Nat
deriving DecidableEq

/-- Directory entry container, from `fat_struct.rs`
(`FatDirectoryEntryContainer`). The cached name is the list of Unicode code
points of the decoded `String`. -/
structure FatDirectoryEntryContainer where
  short_entry : FatDirectoryEntry
  long_entries : List FatLongDirectoryEntry
  cached_name : List Nat
  cached_cluster_count : Nat
deriving DecidableEq

/-- The backing disk image: a byte function plus the file length. -/
structure Image where
  bytes : Nat → Nat
  size : Nat

/-- The mounted volume handle, from `lib.rs` (`struct Fat`). The three
`HashMap`s are modelled as lookup functions. -/
structure Fat where
  bs : FatBs
  bpb : FatBpb
  ebpb16 : Option FatEbpb
  ebpb32 : Option Fat32Ebpb
  image : Image
  fat : Nat → Option Bytes
  dir_cache : Nat → Option (List FatDirectoryEntryContainer)
  inode_cache : Nat → Option Nat
  fat_type : FatType

/-- `FatDirectoryEntry::cluster_number` (fat_dir.rs): combine the low/high
16-bit halves of the first-cluster field. -/
def FatDirectoryEntry.cluster_number (e : FatDirectoryEntry) : Nat :=
  (e.first_cluster_hi <<< 16) ||| e.first_cluster_low

/-- `FatDirectoryEntryContainer::cluster_number` (fat_dir.rs). -/
def FatDirectoryEntryContainer.cluster_number
    (c : FatDirectoryEntryContainer) : Nat :=
  c.short_entry.cluster_number

/-- `read_sector` (fat_helper.rs): seek to `bytes_per_sector * sector_number`
and read exactly one sector; a read past the end of the image is a panic. -/
def read_sector (fat : Fat) (sector_number : Nat) : Option Bytes :=
  if (sector_number + 1) * fat.bpb.bytes_per_sector ≤ fat.image.size then
    some { byte := fun j =>
             fat.image.bytes (sector_number * fat.bpb.bytes_per_sector + j)
               % 256,
           len := fat.bpb.bytes_per_sector }
  else
    none

/-- `read_cluster` (fat_helper.rs): the concatenation of
`sectors_per_cluster` consecutive sectors starting at `first_sector`. -/
def read_cluster (fat : Fat) (first_sector : Nat) : Option Bytes :=
  (List.range fat.bpb.sectors_per_cluster).foldlM
    (fun data i => (read_sector fat (first_sector + i)).map data.append)
    Bytes.empty

/-- `calculate_fat_size` (fat_helper.rs): `fat_size_16` when nonzero, else the
FAT32 EBPB's `fat_size_32` (panics when the EBPB is absent). -/
def calculate_fat_size (fat : Fat) : Option Nat :=
  if fat.bpb.fat_size_16 ≠ 0 then some fat.bpb.fat_size_16
  else fat.ebpb32.map Fat32Ebpb.fat_size_32

/-- `determine_fat_entry_offset` (fat_helper.rs): map a cluster number to the
FAT sector number and the byte offset of its entry inside that sector.  For
FAT32 the code tests bit 8 of the EBPB flags word (mask `0b0000000100000000`)
and, when it is set, takes bits 12-15 (mask `0b1111000000000000`, shifted by
12) as the active FAT index.  Division by a zero `bytes_per_sector` is a
panic. -/
def determine_fat_entry_offset (fat : Fat) (cluster_number : Nat) :
    Option (Nat × Nat) :=
  if fat.bpb.bytes_per_sector = 0 then none else
  let fat_offset : Nat :=
    (match fat.fat_type with
      | FatType.Fat16 => cluster_number * 2
      | FatType.Fat32 => cluster_number * 4
      | FatType.Fat12 => cluster_number + cluster_number / 2) % 4294967296
  let fat_sector_number : Nat :=
    (fat.bpb.reserved_clusters + fat_offset / fat.bpb.bytes_per_sector)
      % 4294967296
  let fat_entry_offset : Nat := fat_offset % fat.bpb.bytes_per_sector
  match fat.fat_type with
  | FatType.Fat32 =>
      fat.ebpb32.bind fun e =>
        if e.flags &&& 256 = 0 then
          some (fat_sector_number, fat_entry_offset)
        else
          let active_fat := (e.flags &&& 61440) >>> 12
          (calculate_fat_size fat).map fun fat_size =>
            ((fat_sector_number + active_fat * fat_size) % 4294967296,
              fat_entry_offset)
  | _ => some (fat_sector_number, fat_entry_offset)

/-- `read_fat_entry` (fat_helper.rs): decode the FAT entry for
`cluster_number` from the preloaded sector map.  A missing map entry or an
out-of-bounds index is a panic. -/
def read_fat_entry (fat : Fat) (cluster_number fat_sector_number
    fat_entry_offset : Nat) : Option Nat :=
  (fat.fat fat_sector_number).bind fun sector =>
  match fat.fat_type with
  | FatType.Fat12 =>
      let split := fat.bpb.bytes_per_sector - 1
      (if fat_entry_offset = split then
        (fat.fat ((fat_sector_number + 1) % 4294967296)).bind fun sector1 =>
        (sector.get? fat_entry_offset).bind fun b0 =>
        (sector1.get? 0).map fun b1 => b0 ||| (b1 <<< 8)
      else
        (sector.get? fat_entry_offset).bind fun b0 =>
        (sector.get? (fat_entry_offset + 1)).map fun b1 =>
          b0 ||| (b1 <<< 8)).map fun v =>
        if cluster_number &&& 1 ≠ 0 then v >>> 4 else v &&& 4095
  | FatType.Fat16 =>
      (sector.get? fat_entry_offset).bind fun b0 =>
      (sector.get? (fat_entry_offset + 1)).map fun b1 => b0 ||| (b1 <<< 8)
  | FatType.Fat32 =>
      (sector.get? fat_entry_offset).bind fun b0 =>
      (sector.get? (fat_entry_offset + 1)).bind fun b1 =>
      (sector.get? (fat_entry_offset + 2)).bind fun b2 =>
      (sector.get? (fat_entry_offset + 3)).map fun b3 =>
        (b0 ||| (b1 <<< 8) ||| (b2 <<< 16) ||| (b3 <<< 24)) &&& 268435455


/-- Composition of `determine_fat_entry_offset` and `read_fat_entry`: the FAT
entry of a cluster, as every chain-walking loop obtains it. -/
def fat_entry_of (fat : Fat) (cluster_number : Nat) : Option Nat :=
  (determine_fat_entry_offset fat cluster_number).bind fun so =>
    read_fat_entry fat cluster_number so.1 so.2

/-- `root_dir_sectors` (fat_helper.rs): `u16` ceiling division; the
multiplication and addition wrap mod 2^16, the division by a zero
`bytes_per_sector` is a panic. -/
def root_dir_sectors (fat : Fat) : Option Nat :=
  if fat.bpb.bytes_per_sector = 0 then none else
  some ((fat.bpb.root_entry_count * 32 + (fat.bpb.bytes_per_sector - 1))
    % 65536 / fat.bpb.bytes_per_sector)

/-- `first_sector_of_cluster` (fat_helper.rs): `(c − 2) * sectors_per_cluster
+ first_data_sector` in wrapping `u32` arithmetic. -/
def first_sector_of_cluster (fat : Fat) (cluster_number : Nat) : Option Nat :=
  (root_dir_sectors fat).bind fun rds =>
  (calculate_fat_size fat).map fun fat_size =>
    let first_data_sector :=
      (fat.bpb.reserved_clusters + fat.bpb.num_fats * fat_size % 4294967296
        + rds) % 4294967296
    ((cluster_number + 4294967294) % 4294967296 * fat.bpb.sectors_per_cluster
      + first_data_sector) % 4294967296

/-- `is_eof` (fat_helper.rs): per-type end-of-chain sentinel test. -/
def is_eof (fat : Fat) (fat_entry : Nat) : Bool :=
  match fat.fat_type with
  | FatType.Fat12 => 4088 ≤ fat_entry
  | FatType.Fat16 => 65528 ≤ fat_entry
  | FatType.Fat32 => 268435448 ≤ fat_entry

/-- Loop body of `file_cluster_count` (fat_helper.rs).  Note that the source
passes the chain-start `cluster_number` — not the current block — to
`read_fat_entry`, which matters for FAT12 parity; the embedding reproduces
this.  `none` is a panic or fuel exhaustion. -/
def file_cluster_count_go (fat : Fat) (cluster_number : Nat) :
    Nat → Nat → Nat → Option Nat
  | 0, _, _ => none
  | fuel + 1, current_block, n_blocks =>
      (determine_fat_entry_offset fat current_block).bind fun so =>
      (read_fat_entry fat cluster_number so.1 so.2).bind fun fat_entry =>
      if is_eof fat fat_entry || fat_entry = 0 then some (n_blocks + 1)
      else file_cluster_count_go fat cluster_number fuel fat_entry
        (n_blocks + 1)

/-- `file_cluster_count` (fat_helper.rs): walk the chain from
`cluster_number`, counting clusters; 0 for an empty file. -/
def file_cluster_count (fuel : Nat) (fat : Fat) (cluster_number : Nat) :
    Option Nat :=
  if cluster_number = 0 then some 0
  else file_cluster_count_go fat cluster_number fuel cluster_number 0

/-- `read_data` (fat_helper.rs): read one cluster and look up its FAT entry;
the second component is `none` at end of chain, `some next` otherwise. -/
def read_data (fat : Fat) (cluster_number : Nat) :
    Option (Bytes × Option Nat) :=
  if cluster_number = 0 then some (Bytes.empty, none) else
  (first_sector_of_cluster fat cluster_number).bind fun sector_number =>
  (read_cluster fat sector_number).bind fun sector =>
  (determine_fat_entry_offset fat cluster_number).bind fun so =>
  (read_fat_entry fat cluster_number so.1 so.2).map fun fat_entry =>
    (sector, if is_eof fat fat_entry || fat_entry = 0 then none
             else some fat_entry)

/-- Loop of `read_file_full` (fat_helper.rs). -/
def read_file_full_go (fat : Fat) :
    Nat → Bytes × Option Nat → Option Bytes
  | _, (sector, none) => some sector
  | 0, (_, some _) => none
  | fuel + 1, (sector, some fat_entry) =>
      (read_data fat fat_entry).bind fun p =>
      (read_file_full_go fat fuel p).map fun rest => sector.append rest

/-- `read_file_full` (fat_helper.rs): concatenation of every cluster of the
chain starting at `cluster_number`. -/
def read_file_full (fuel : Nat) (fat : Fat) (cluster_number : Nat) :
    Option Bytes :=
  (read_data fat cluster_number).bind fun p => read_file_full_go fat fuel p

/-- `chksum` (fat_dir.rs): the FAT short-name checksum, a byte-wise
rotate-right-then-add over the 11 name bytes. -/
def chksum (name : List Nat) : Nat :=
  name.foldl (fun sum c =>
    let p1 := if sum &&& 1 ≠ 0 then 128 else 0
    let p2 := sum >>> 1
    (p1 + p2 + c) % 256) 0

/-- Helper of the directory decoder: little-endian `u16` at byte offset `i`
of a 32-byte entry buffer. -/
def entry_u16 (b : List Nat) (i : Nat) : Nat :=
  b.getD i 0 ||| (b.getD (i + 1) 0 <<< 8)

/-- Helper of the directory decoder: little-endian `u32` at byte offset `i`
of a 32-byte entry buffer. -/
def entry_u32 (b : List Nat) (i : Nat) : Nat :=
  b.getD i 0 ||| (b.getD (i + 1) 0 <<< 8) ||| (b.getD (i + 2) 0 <<< 16)
    ||| (b.getD (i + 3) 0 <<< 24)

/-- `FatDirectoryEntry::new` (fat_dir.rs): parse a 32-byte buffer into a
short directory entry. -/
def FatDirectoryEntry.ofBytes (b : List Nat) : FatDirectoryEntry where
  name := b.take 11
  attr := b.getD 11 0
  nt_reserved := b.getD 12 0
  created_time_tenth := b.getD 13 0
  created_time := entry_u16 b 14
  created_date := entry_u16 b 16
  last_accessed := entry_u16 b 18
  first_cluster_hi := entry_u16 b 20
  write_time := entry_u16 b 22
  write_date := entry_u16 b 24
  first_cluster_low := entry_u16 b 26
  size := entry_u32 b 28

/-- `FatLongDirectoryEntry::new` (fat_dir.rs): parse a 32-byte buffer into a
long-name directory entry; the 13 UTF-16 code units sit in three
sub-ranges. -/
def FatLongDirectoryEntry.ofBytes (b : List Nat) : FatLongDirectoryEntry where
  order := b.getD 0 0
  name1 := [entry_u16 b 1, entry_u16 b 3, entry_u16 b 5, entry_u16 b 7,
    entry_u16 b 9]
  attr := b.getD 11 0
  dir_type := b.getD 12 0
  checksum := b.getD 13 0
  name2 := [entry_u16 b 14, entry_u16 b 16, entry_u16 b 18, entry_u16 b 20,
    entry_u16 b 22, entry_u16 b 24]
  first_cluster_low := entry_u16 b 26
  name3 := [entry_u16 b 28, entry_u16 b 30]

/-- The long-entry validation loop of `read_dir_chain` (fat_dir.rs): pop the
pending list from the front; with `n` = remaining + 1, the source tests
`attr & n == 0` (the comment claims this checks the sequence number) and then
the checksum byte; on failure the accepted list is cleared and the loop
breaks, leaving the unconsumed tail pending.  Returns (accepted entries,
leftover pending list). -/
def validate_long_entries (checksum : Nat) :
    List FatLongDirectoryEntry → List FatLongDirectoryEntry →
      List FatLongDirectoryEntry × List FatLongDirectoryEntry
  | pushed, [] => (pushed, [])
  | pushed, e :: rest =>
      let n := rest.length + 1
      if e.attr &&& n = 0 then ([], rest)
      else if e.checksum ≠ checksum then ([], rest)
      else validate_long_entries checksum (pushed ++ [e]) rest

/-- Rust `char::decode_utf16` followed by `unwrap_or(REPLACEMENT_CHARACTER)`:
UTF-16 code units to Unicode code points, unpaired surrogates becoming
U+FFFD (65533). -/
def decode_utf16 : List Nat → List Nat
  | [] => []
  | [u] => if u < 55296 ∨ 57344 ≤ u then [u] else [65533]
  | u :: v :: rest =>
      if u < 55296 ∨ 57344 ≤ u then u :: decode_utf16 (v :: rest)
      else if u < 56320 ∧ 56320 ≤ v ∧ v < 57344 then
        (65536 + (u - 55296) * 1024 + (v - 56320)) :: decode_utf16 rest
      else 65533 :: decode_utf16 (v :: rest)

/-- Whether a byte is a UTF-8 continuation byte. -/
def utf8_cont (b : Nat) : Prop := 128 ≤ b ∧ b ≤ 191

instance (b : Nat) : Decidable (utf8_cont b) := by
  unfold utf8_cont
  infer_instance

/-- Rust `String::from_utf8`: strict UTF-8 validation and decoding of a byte
list into code points; `none` models the `Err` case (whose `unwrap` is a
panic). -/
def utf8_decode : List Nat → Option (List Nat)
  | [] => some []
  | b0 :: r0 =>
      if b0 < 128 then (utf8_decode r0).map (b0 :: ·)
      else if b0 < 194 then none
      else if b0 < 224 then
        match r0 with
        | b1 :: r1 =>
            if utf8_cont b1 then
              (utf8_decode r1).map (((b0 &&& 31) <<< 6 ||| (b1 &&& 63)) :: ·)
            else none
        | [] => none
      else if b0 < 240 then
        match r0 with
        | b1 :: b2 :: r2 =>
            if (if b0 = 224 then 160 ≤ b1 ∧ b1 ≤ 191
                else if b0 = 237 then 128 ≤ b1 ∧ b1 ≤ 159
                else utf8_cont b1) ∧ utf8_cont b2 then
              (utf8_decode r2).map
                (((b0 &&& 15) <<< 12 ||| (b1 &&& 63) <<< 6 ||| (b2 &&& 63))
                  :: ·)
            else none
        | _ => none
      else if b0 < 245 then
        match r0 with
        | b1 :: b2 :: b3 :: r3 =>
            if (if b0 = 240 then 144 ≤ b1 ∧ b1 ≤ 191
                else if b0 = 244 then 128 ≤ b1 ∧ b1 ≤ 143
                else utf8_cont b1) ∧ utf8_cont b2 ∧ utf8_cont b3 then
              (utf8_decode r3).map
                (((b0 &&& 7) <<< 18 ||| (b1 &&& 63) <<< 12
                  ||| (b2 &&& 63) <<< 6 ||| (b3 &&& 63)) :: ·)
            else none
        | _ => none
      else none

/-- The `for (index, c) in name.iter().rev().enumerate()` search of
`parse_name` (fat_dir.rs): the position of the first element different from
`x`. -/
def position_ne (x : Nat) : List Nat → Option Nat
  | [] => none
  | a :: l => if a ≠ x then some 0 else (position_ne x l).map (· + 1)

/-- The byte buffer built by the short-name branch of
`FatDirectoryEntryContainer::parse_name` (fat_dir.rs): first byte (0x05
rewritten to 0xE5), then `name[1..8]` up to the last non-pad byte, then the
extension part gated on `ext[0] != 0x20`. -/
def parse_name_short_bytes (nm : List Nat) : List Nat :=
  let name := (nm.drop 1).take 7
  let ext := (nm.drop 8).take 3
  let first := if nm.getD 0 0 = 5 then 229 else nm.getD 0 0
  let end_index := match position_ne 32 name.reverse with
    | none => 0
    | some index => name.length - index
  first :: (name.take end_index ++
    (if ext.getD 0 0 ≠ 32 then
      [46, ext.getD 0 0] ++
        (if ext.getD 2 0 ≠ 32 then [ext.getD 1 0, ext.getD 2 0]
         else if ext.getD 1 0 ≠ 32 then [ext.getD 1 0]
         else [])
     else []))

/-- Write loop of `replace_vec_section` (fat_dir.rs): `v[start + index] = *c`
for each element of `a` in order; the first out-of-bounds index is a panic. -/
def replace_vec_section_go (start : Nat) :
    List Nat → Nat → List Nat → Option (List Nat)
  | [], _, v => some v
  | c :: rest, index, v =>
      if start + index < v.length then
        replace_vec_section_go start rest (index + 1) (v.set (start + index) c)
      else none

/-- `replace_vec_section` (fat_dir.rs): overwrite `v[start..start+a.length]`
with `a`, one element at a time; an out-of-bounds write is a panic.  (With an
empty `a` the loop body never runs, so no panic regardless of `start`.) -/
def replace_vec_section (v a : List Nat) (start : Nat) : Option (List Nat) :=
  replace_vec_section_go start a 0 v

/-- The long-name assembly loop of `parse_name` (fat_dir.rs): place the three
sub-ranges of each fragment at `(entry_n as usize - 1) * 13` in the buffer,
where `entry_n = order & !0x40`.  Both the subtraction and the multiplication
are release-mode wrapping `usize` arithmetic: for `entry_n = 0` (order byte
0x40) the offset wraps to `2^64 - 13` and the first placement panics. -/
def assemble_name_bytes_go :
    List FatLongDirectoryEntry → List Nat → Option (List Nat)
  | [], v => some v
  | e :: rest, v =>
      let entry_n := e.order &&& 191
      let offset := (entry_n + 18446744073709551615) % 18446744073709551616
        * 13 % 18446744073709551616
      (replace_vec_section v e.name1 offset).bind fun v1 =>
      (replace_vec_section v1 e.name2 (offset + 5)).bind fun v2 =>
      (replace_vec_section v2 e.name3 (offset + 11)).bind fun v3 =>
      assemble_name_bytes_go rest v3

/-- The `name_bytes` buffer of the long-name branch of `parse_name`
(fat_dir.rs): `13 × fragments` UTF-16 code units, assembled by fragment
index. -/
def assemble_name_bytes (long_entries : List FatLongDirectoryEntry) :
    Option (List Nat) :=
  assemble_name_bytes_go long_entries
    (List.replicate (long_entries.length * 13) 0)

/-- The `position(|&r| r == 0)` search of `parse_name` (fat_dir.rs). -/
def position_eq (x : Nat) : List Nat → Option Nat
  | [] => none
  | a :: l => if a = x then some 0 else (position_eq x l).map (· + 1)

/-- `FatDirectoryEntryContainer::parse_name` (fat_dir.rs): with no long
entries, strip the 8.3 short name and decode it as UTF-8; otherwise assemble
the long-name code units, truncate at the first 0 unit (a missing terminator
is an `unwrap` panic) and decode UTF-16. -/
def parse_name (short_entry : FatDirectoryEntry)
    (long_entries : List FatLongDirectoryEntry) : Option (List Nat) :=
  match long_entries with
  | [] => utf8_decode (parse_name_short_bytes short_entry.name)
  | _ =>
      (assemble_name_bytes long_entries).bind fun name_bytes =>
      (position_eq 0 name_bytes).map fun index =>
        decode_utf16 (name_bytes.take index)

/-- Loop of `read_dir_chain` (fat_dir.rs): iterate the directory buffer in
32-byte steps, collecting long-name fragments and building containers for
accepted short entries.  A slice past the end of the buffer, a panic inside
`file_cluster_count` or `parse_name`, and fuel exhaustion are `none`.  The
fuel is chosen by the wrapper so that it can never run out before the bounds
check fires. -/
def read_dir_chain_go (fat : Fat) (cluster_fuel : Nat) (sector : Bytes) :
    Nat → Nat → List FatLongDirectoryEntry →
      List FatDirectoryEntryContainer →
      Option (List FatDirectoryEntryContainer)
  | 0, _, _, _ => none
  | fuel + 1, current, pending, acc =>
      if sector.len < current + 32 then none else
      let current_buffer := sector.extract current 32
      if current_buffer.getD 0 0 = 0 then some acc
      else if current_buffer.getD 0 0 = 229 then
        read_dir_chain_go fat cluster_fuel sector fuel (current + 32)
          pending acc
      else
        let attr := current_buffer.getD 11 0
        if attr &&& 63 = 15 then
          read_dir_chain_go fat cluster_fuel sector fuel (current + 32)
            (pending ++ [FatLongDirectoryEntry.ofBytes current_buffer]) acc
        else if attr &&& 24 = 0 ∨ attr &&& 24 = 16 ∨ attr &&& 24 = 8 then
          let short_entry := FatDirectoryEntry.ofBytes current_buffer
          let checksum := chksum short_entry.name
          let vl := validate_long_entries checksum [] pending
          (file_cluster_count cluster_fuel fat
              short_entry.cluster_number).bind fun cluster_count =>
          (parse_name short_entry vl.1).bind fun name =>
          let container : FatDirectoryEntryContainer :=
            { short_entry := short_entry, long_entries := vl.1,
              cached_name := name, cached_cluster_count := cluster_count }
          read_dir_chain_go fat cluster_fuel sector fuel (current + 32) vl.2
            (acc ++ [container])
        else
          read_dir_chain_go fat cluster_fuel sector fuel (current + 32)
            pending acc

/-- `read_dir_chain` (fat_dir.rs): decode a directory buffer, then cache the
decoded list under `inode` and point every child's first cluster at `inode`
in the inode-to-parent map. -/
def read_dir_chain (cluster_fuel : Nat) (fat : Fat) (inode : Nat)
    (sector : Bytes) (start : Nat) : Option Fat :=
  (read_dir_chain_go fat cluster_fuel sector (sector.len / 32 + 1) start
      [] []).map fun directory_entries =>
    { fat with
      inode_cache := directory_entries.foldl
        (fun ic e => fun c =>
          if c = e.cluster_number then some inode else ic c)
        fat.inode_cache,
      dir_cache := fun i =>
        if i = inode then some directory_entries else fat.dir_cache i }

/-- `read_root_dir` (fat_dir.rs): decode the FAT12/16 fixed root region under
cluster 0, or the FAT32 root chain under its root cluster. -/
def read_root_dir (fuel : Nat) (fat : Fat) : Option Fat :=
  match fat.fat_type with
  | FatType.Fat32 =>
      fat.ebpb32.bind fun e =>
      (read_file_full fuel fat e.root_cluster).bind fun root_dir =>
      read_dir_chain fuel fat e.root_cluster root_dir 0
  | _ =>
      let first_root_sector_num :=
        (fat.bpb.reserved_clusters
          + fat.bpb.num_fats * fat.bpb.fat_size_16) % 65536
      (root_dir_sectors fat).bind fun root_sector_count =>
      ((List.range root_sector_count).foldlM
        (fun root_dir i =>
          (read_sector fat (i + first_root_sector_num)).map root_dir.append)
        Bytes.empty).bind fun root_dir =>
      read_dir_chain fuel fat 0 root_dir 0

/-- `get_dir` (fat_dir.rs), state part: when `inode` is not cached, read its
cluster chain and decode it into the caches. -/
def get_dir (fuel : Nat) (fat : Fat) (inode : Nat) : Option Fat :=
  if (fat.dir_cache inode).isSome then some fat
  else (read_file_full fuel fat inode).bind fun dir_file =>
       read_dir_chain fuel fat inode dir_file 0

/-- Little-endian `u16` read from a 512-byte boot-sector buffer. -/
def buf_u16 (buf : Nat → Nat) (i : Nat) : Nat := buf i ||| (buf (i + 1) <<< 8)

/-- Little-endian `u32` read from a 512-byte boot-sector buffer. -/
def buf_u32 (buf : Nat → Nat) (i : Nat) : Nat :=
  buf i ||| (buf (i + 1) <<< 8) ||| (buf (i + 2) <<< 16)
    ||| (buf (i + 3) <<< 24)

/-- `FatBs::new` (fat_reserved.rs). -/
def FatBs.ofBuf (buf : Nat → Nat) : FatBs where
  jump := [buf 0, buf 1, buf 2]
  oem_name := (List.range 8).map fun i => buf (3 + i)

/-- `FatBpb::new` (fat_reserved.rs): the BPB fields start at offset 11, all
little-endian. -/
def FatBpb.ofBuf (buf : Nat → Nat) : FatBpb where
  bytes_per_sector := buf_u16 buf 11
  sectors_per_cluster := buf 13
  reserved_clusters := buf_u16 buf 14
  num_fats := buf 16
  root_entry_count := buf_u16 buf 17
  total_sectors_16 := buf_u16 buf 19
  media_descriptor := buf 21
  fat_size_16 := buf_u16 buf 22
  sectors_per_track := buf_u16 buf 24
  heads := buf_u16 buf 26
  hidden_sectors_count := buf_u32 buf 28
  total_sectors_32 := buf_u32 buf 32

/-- `FatEbpb::new` (fat_reserved.rs): the FAT12/16 EBPB starts at offset 36. -/
def FatEbpb.ofBuf (buf : Nat → Nat) : FatEbpb where
  drive_number := buf 36
  reserved := buf 37
  boot_signature := buf 38
  volume_id := (List.range 4).map fun i => buf (39 + i)
  volume_label := (List.range 11).map fun i => buf (43 + i)
  fs_type := (List.range 8).map fun i => buf (54 + i)

/-- `Fat32Ebpb::new` (fat_reserved.rs): the FAT32 EBPB starts at offset 36;
the flags word sits at offset 40, little-endian. -/
def Fat32Ebpb.ofBuf (buf : Nat → Nat) : Fat32Ebpb where
  fat_size_32 := buf_u32 buf 36
  flags := buf_u16 buf 40
  version := buf_u16 buf 42
  root_cluster := buf_u32 buf 44
  fsinfo_sector := buf_u16 buf 48
  backup_sector := buf_u16 buf 50
  reserved := (List.range 12).map fun i => buf (52 + i)
  drive_number := buf 64
  reserved_flags := buf 65
  signature := buf 66
  volume_id := (List.range 4).map fun i => buf (67 + i)
  volume_label := (List.range 11).map fun i => buf (71 + i)
  fs_type := (List.range 8).map fun i => buf (82 + i)

/-- `determine_fat_type` (fat_reserved.rs): classify the volume by the
cluster count computed from the BPB; the subtraction is wrapping `u32`. -/
def determine_fat_type (fat : Fat) : Option (Nat × FatType) :=
  (root_dir_sectors fat).bind fun rds =>
  (if fat.bpb.fat_size_16 ≠ 0 then some fat.bpb.fat_size_16
   else fat.ebpb32.map Fat32Ebpb.fat_size_32).bind fun fat_size =>
  let total_sectors := if fat.bpb.total_sectors_16 ≠ 0 then
    fat.bpb.total_sectors_16 else fat.bpb.total_sectors_32
  let data_sectors := (total_sectors + 4294967296
    - (fat.bpb.reserved_clusters + fat.bpb.num_fats * fat_size % 4294967296
        + rds) % 4294967296) % 4294967296
  if fat.bpb.sectors_per_cluster = 0 then none else
  let cluster_count := data_sectors / fat.bpb.sectors_per_cluster
  some (cluster_count,
    if cluster_count < 4085 then FatType.Fat12
    else if cluster_count < 65525 then FatType.Fat16
    else FatType.Fat32)

/-- `read_reserved` (fat_reserved.rs): read and signature-check the boot
sector (retrying at sector 6), parse the BPB and the appropriate EBPB, check
the declared size against the image, classify the FAT type, require at least
two FATs, and pre-read every sector below the first data sector into the FAT
sector map. -/
def read_reserved (img : Image) : Option Fat :=
  if img.size < 512 then none else
  let buf0 : Nat → Nat := fun i => img.bytes i % 256
  (if buf0 510 = 85 ∧ buf0 511 = 170 then some buf0
   else if img.size < 512 * 7 then none
   else
     let buf6 : Nat → Nat := fun i => img.bytes (512 * 6 + i) % 256
     if buf6 510 = 85 ∧ buf6 511 = 170 then some buf6
     else none).bind fun buf =>
  let bpb := FatBpb.ofBuf buf
  let is32 := bpb.fat_size_16 = 0 ∧ bpb.total_sectors_16 = 0
    ∧ bpb.total_sectors_32 ≠ 0
  let fat0 : Fat :=
    { bs := FatBs.ofBuf buf, bpb := bpb,
      ebpb16 := if is32 then none else some (FatEbpb.ofBuf buf),
      ebpb32 := if is32 then some (Fat32Ebpb.ofBuf buf) else none,
      image := img, fat := fun _ => none, dir_cache := fun _ => none,
      inode_cache := fun _ => none, fat_type := FatType.Fat32 }
  let declared_bytes := (if bpb.total_sectors_16 = 0 then
    bpb.total_sectors_32 else bpb.total_sectors_16) * bpb.bytes_per_sector
  if img.size < declared_bytes then none else
  (determine_fat_type fat0).bind fun ct =>
  let fat1 := { fat0 with fat_type := ct.2 }
  if bpb.num_fats < 2 then none else
  (first_sector_of_cluster fat1 2).bind fun fsoc2 =>
  if img.size < fsoc2 * bpb.bytes_per_sector then none else
  let preloaded : Nat → Option Bytes := fun s =>
    if s < fsoc2 then
      some { byte := fun j => img.bytes (s * bpb.bytes_per_sector + j) % 256,
             len := bpb.bytes_per_sector }
    else none
  some { fat1 with fat := preloaded }

/-- `Fat::mount_volume` (lib.rs): parse the reserved region, then decode the
root directory. -/
def mount_volume (fuel : Nat) (img : Image) : Option Fat :=
  (read_reserved img).bind fun fat => read_root_dir fuel fat

/-- `Fat::get_root_cluster_number` (lib.rs). -/
def get_root_cluster_number (fat : Fat) : Option Nat :=
  if fat.fat_type = FatType.Fat32 then fat.ebpb32.map Fat32Ebpb.root_cluster
  else some 0

/-- `Fat::get_data` (lib.rs): read the whole chain at `ino` and slice
`[offset, offset+size)`, clamping the tail at the end of the chain data.
The outer `Option` is the panic level, the inner one the absence result. -/
def get_data (fuel : Nat) (fat : Fat) (ino offset size : Nat) :
    Option (Option (List Nat)) :=
  if (fat.inode_cache ino).isSome = false then some none
  else
    (read_file_full fuel fat ino).bind fun data =>
    let head := offset % 18446744073709551616
    let tail0 := (head + size) % 18446744073709551616
    if data.len < head then some (some [])
    else
      let tail := if data.len < tail0 then data.len else tail0
      if tail < head then none
      else some (some (data.extract head (tail - head)))

/-- ASCII case folding; models Rust `str::to_lowercase`, which coincides
with it on the ASCII names exercised here. -/
def to_lowercase_ascii (name : List Nat) : List Nat :=
  name.map fun c => if 65 ≤ c ∧ c ≤ 90 then c + 32 else c

/-- `Fat::lookup` (lib.rs): ensure the parent is cached, then scan its
children under case-insensitive name equality. -/
def lookup (fuel : Nat) (fat : Fat) (parent_inode : Nat) (name : List Nat) :
    Option (Fat × Option FatDirectoryEntryContainer) :=
  let lowered := to_lowercase_ascii name
  (get_dir fuel fat parent_inode).map fun fat' =>
    (fat', match fat'.dir_cache parent_inode with
      | none => none
      | some dir =>
          dir.find? fun child =>
            to_lowercase_ascii child.cached_name == lowered)

/-- `Fat::get_inode` (lib.rs): follow the inode-to-parent map, then `unwrap`
the parent's directory-cache entry (a missing entry is a panic) and scan for
the child. -/
def get_inode (fat : Fat) (inode : Nat) :
    Option (Option FatDirectoryEntryContainer) :=
  match fat.inode_cache inode with
  | none => some none
  | some parent_inode =>
      match fat.dir_cache parent_inode with
      | none => none
      | some children =>
          some (children.find? fun child => child.cluster_number == inode)

/-- `Fat::list_directory` (lib.rs). -/
def list_directory (fuel : Nat) (fat : Fat) (inode : Nat) :
    Option (Fat × Option (List FatDirectoryEntryContainer)) :=
  (get_dir fuel fat inode).map fun fat' => (fat', fat'.dir_cache inode)

/-- A public operation on a mounted volume (the `lib.rs` surface used by the
FUSE bridge). -/
inductive FatOp where
  | list_dir (inode : Nat) : FatOp
  | look_up (parent_inode : Nat) (name : List Nat) : FatOp
  | read_file (inode offset size : Nat) : FatOp
  | stat (inode : Nat) : FatOp

/-- Apply one public operation to the volume state; `none` is a panic. -/
def apply_op (fuel : Nat) (fat : Fat) : FatOp → Option Fat
  | FatOp.list_dir inode => (list_directory fuel fat inode).map Prod.fst
  | FatOp.look_up p n => (lookup fuel fat p n).map Prod.fst
  | FatOp.read_file ino off sz =>
      (get_data fuel fat ino off sz).map fun _ => fat
  | FatOp.stat ino => (get_inode fat ino).map fun _ => fat

/-- Run a sequence of public operations. -/
def run_ops (fuel : Nat) : Fat → List FatOp → Option Fat
  | fat, [] => some fat
  | fat, op :: ops =>
      (apply_op fuel fat op).bind fun fat' => run_ops fuel fat' ops

/-- Boot-sector prefix (jump, OEM name, BPB) of the seed FAT12 floppy image:
bytes_per_sector 512, sectors_per_cluster 1, 1 reserved sector, 2 FATs of 9
sectors, 224 root entries, 2880 total sectors. -/
def c1_boot_bytes : List Nat :=
  [235, 60, 144,
   77, 83, 68, 79, 83, 53, 46, 48,
   0, 2,
   1,
   1, 0,
   2,
   224, 0,
   64, 11,
   240,
   9, 0,
   18, 0,
   2, 0,
   0, 0, 0, 0,
   0, 0, 0, 0]

/-- Root-directory entry of the seed image: short name `HELLO   TXT`,
archive attribute, first cluster 2, size 13. -/
def c1_root_entry : List Nat :=
  [72, 69, 76, 76, 79, 32, 32, 32, 84, 88, 84,
   32, 0, 0, 0, 0, 0, 0, 0, 0, 0, 0, 0, 0, 0, 0, 2, 0, 13, 0, 0, 0]

/-- File content of the seed image: the ASCII bytes of `Hello, world!`. -/
def c1_file_bytes : List Nat :=
  [72, 101, 108, 108, 111, 44, 32, 119, 111, 114, 108, 100, 33]

/-- The seed 1.44 MB FAT12 floppy image: FAT entry 2 is the end-of-chain
value 0xFFF (FAT bytes 3 and 4 of sector 1), the root directory starts at
sector 19 (byte 9728) and cluster 2 is sector 33 (byte 16896). -/
def c1_img : Image where
  size := 1474560
  bytes := fun i =>
    if i < 36 then c1_boot_bytes.getD i 0
    else if i = 510 then 85
    else if i = 511 then 170
    else if 512 ≤ i ∧ i < 517 then [240, 255, 255, 255, 15].getD (i - 512) 0
    else if 9728 ≤ i ∧ i < 9760 then c1_root_entry.getD (i - 9728) 0
    else if 16896 ≤ i ∧ i < 16909 then c1_file_bytes.getD (i - 16896) 0
    else 0

/-- The seed image, mounted. -/
def c1_mount : Option Fat := mount_volume 100 c1_img

/-- The names listed for the root directory (inode 0) of the seed image. -/
def c1_names : Option (List (List Nat)) :=
  c1_mount.bind fun f => (list_directory 100 f 0).bind fun p =>
    p.2.map fun dir => dir.map FatDirectoryEntryContainer.cached_name

/-- `get_data(2, offset, size)` on the seed image, with the absence level
flattened into the panic level. -/
def c1_read (offset size : Nat) : Option (List Nat) :=
  c1_mount.bind fun f => (get_data 100 f 2 offset size).bind fun r => r

/-- The BPB of the seed floppy, as `read_reserved` parses it. -/
def c1_bpb : FatBpb where
  bytes_per_sector := 512
  sectors_per_cluster := 1
  reserved_clusters := 1
  num_fats := 2
  root_entry_count := 224
  total_sectors_16 := 2880
  media_descriptor := 240
  fat_size_16 := 9
  sectors_per_track := 18
  heads := 2
  hidden_sectors_count := 0
  total_sectors_32 := 0

/-- The (all-zero) FAT12/16 EBPB of the seed floppy. -/
def c1_ebpb16 : FatEbpb where
  drive_number := 0
  reserved := 0
  boot_signature := 0
  volume_id := [0, 0, 0, 0]
  volume_label := [0, 0, 0, 0, 0, 0, 0, 0, 0, 0, 0]
  fs_type := [0, 0, 0, 0, 0, 0, 0, 0]

/-- The volume state right after `read_reserved` on the seed image: FAT12,
first data sector 33, sectors 0-32 preloaded. -/
def c1_fat : Fat where
  bs := { jump := [235, 60, 144],
          oem_name := [77, 83, 68, 79, 83, 53, 46, 48] }
  bpb := c1_bpb
  ebpb16 := some c1_ebpb16
  ebpb32 := none
  image := c1_img
  fat := fun s =>
    if s < 33 then
      some { byte := fun j => c1_img.bytes (s * 512 + j) % 256, len := 512 }
    else none
  dir_cache := fun _ => none
  inode_cache := fun _ => none
  fat_type := FatType.Fat12

/-- The decoded short entry of `HELLO   TXT`. -/
def c1_short_entry : FatDirectoryEntry where
  name := [72, 69, 76, 76, 79, 32, 32, 32, 84, 88, 84]
  attr := 32
  nt_reserved := 0
  created_time_tenth := 0
  created_time := 0
  created_date := 0
  last_accessed := 0
  first_cluster_hi := 0
  write_time := 0
  write_date := 0
  first_cluster_low := 2
  size := 13

/-- The container the directory decoder builds for `HELLO   TXT`: name
`HELLO.TXT`, one cluster. -/
def c1_container : FatDirectoryEntryContainer where
  short_entry := c1_short_entry
  long_entries := []
  cached_name := [72, 69, 76, 76, 79, 46, 84, 88, 84]
  cached_cluster_count := 1

/-- The volume state after `mount_volume` on the seed image: the root
directory is cached under inode 0 and `HELLO.TXT`'s cluster 2 points back at
inode 0. -/
def c1_mounted : Fat :=
  { c1_fat with
    dir_cache := fun i => if i = 0 then some [c1_container] else none,
    inode_cache := fun c => if c = 2 then some 0 else none }

/-- Boot-sector prefix of the FAT32 test image: bytes_per_sector 512, one
reserved sector, 2 FATs, no 16-bit totals (132000 sectors, FAT size 520),
hence FAT32. -/
def c2_boot_bytes : List Nat :=
  [235, 88, 144,
   77, 83, 68, 79, 83, 53, 46, 48,
   0, 2,
   1,
   1, 0,
   2,
   0, 0,
   0, 0,
   248,
   0, 0,
   63, 0,
   255, 0,
   0, 0, 0, 0,
   160, 3, 2, 0,
   8, 2, 0, 0,
   129, 0,
   0, 0,
   2, 0, 0, 0,
   1, 0,
   6, 0]

/-- The FAT32 test image with EBPB flags 0x0081 (mirroring disabled, active
FAT 1): FAT bank 1 starts at sector 1 and holds the end-of-chain value for
cluster 2; FAT bank 2 starts at sector 521 and holds the pointer value 3 for
cluster 2; the root directory (cluster 2, sector 1041) is empty. -/
def c2_img : Image where
  size := 67584000
  bytes := fun i =>
    if i < 52 then c2_boot_bytes.getD i 0
    else if i = 510 then 85
    else if i = 511 then 170
    else if 512 ≤ i ∧ i < 524 then
      [248, 255, 255, 15, 255, 255, 255, 255,
       255, 255, 255, 15].getD (i - 512) 0
    else if 266752 ≤ i ∧ i < 266764 then
      [248, 255, 255, 15, 255, 255, 255, 255, 3, 0, 0, 0].getD (i - 266752) 0
    else 0

/-- The FAT32 EBPB of the `c2` image, as parsed: flags = 0x0081. -/
def c2_ebpb32 : Fat32Ebpb where
  fat_size_32 := 520
  flags := 129
  version := 0
  root_cluster := 2
  fsinfo_sector := 1
  backup_sector := 6
  reserved := [0, 0, 0, 0, 0, 0, 0, 0, 0, 0, 0, 0]
  drive_number := 0
  reserved_flags := 0
  signature := 0
  volume_id := [0, 0, 0, 0]
  volume_label := [0, 0, 0, 0, 0, 0, 0, 0, 0, 0, 0]
  fs_type := [0, 0, 0, 0, 0, 0, 0, 0]

/-- The BPB of the `c2` FAT32 image. -/
def c2_bpb : FatBpb where
  bytes_per_sector := 512
  sectors_per_cluster := 1
  reserved_clusters := 1
  num_fats := 2
  root_entry_count := 0
  total_sectors_16 := 0
  media_descriptor := 248
  fat_size_16 := 0
  sectors_per_track := 63
  heads := 255
  hidden_sectors_count := 0
  total_sectors_32 := 132000

/-- The `c2` volume right after `read_reserved`: FAT32, first data sector
1041, sectors 0-1040 preloaded (both FAT banks). -/
def c2_fat : Fat where
  bs := { jump := [235, 88, 144],
          oem_name := [77, 83, 68, 79, 83, 53, 46, 48] }
  bpb := c2_bpb
  ebpb16 := none
  ebpb32 := some c2_ebpb32
  image := c2_img
  fat := fun s =>
    if s < 1041 then
      some { byte := fun j => c2_img.bytes (s * 512 + j) % 256, len := 512 }
    else none
  dir_cache := fun _ => none
  inode_cache := fun _ => none
  fat_type := FatType.Fat32

/-- The `c2` volume after mounting: the empty root directory is cached under
its cluster 2. -/
def c2_mounted : Fat :=
  { c2_fat with
    dir_cache := fun i => if i = 2 then some [] else none }

/-- Boot-sector prefix of the small FAT12 test images: bytes_per_sector 512,
one reserved sector, 2 FATs of 1 sector, 16 root entries (1 sector), 16
total sectors, so 12 data clusters and FAT12. -/
def c3_boot_bytes : List Nat :=
  [235, 60, 144,
   77, 83, 68, 79, 83, 53, 46, 48,
   0, 2,
   1,
   1, 0,
   2,
   16, 0,
   16, 0,
   240,
   1, 0,
   18, 0,
   2, 0,
   0, 0, 0, 0,
   0, 0, 0, 0]

/-- A small 16-sector FAT12 image: FAT at sector 1 (backup at 2), root
directory at sector 3, data from sector 4 (cluster 2). -/
def small_fat12_img (fat_bytes root_bytes : List Nat) : Image where
  size := 8192
  bytes := fun i =>
    if i < 36 then c3_boot_bytes.getD i 0
    else if i = 510 then 85
    else if i = 511 then 170
    else if 512 ≤ i ∧ i < 1024 then fat_bytes.getD (i - 512) 0
    else if 1536 ≤ i ∧ i < 2048 then root_bytes.getD (i - 1536) 0
    else 0

/-- FAT12 image whose FAT holds the chain 2 → 3 → end-of-chain (entry 2 is
3, entry 3 is 0xFFF) and an empty root directory. -/
def c3_img : Image := small_fat12_img [240, 255, 255, 3, 240, 255] []

/-- FAT12 image whose FAT entry for cluster 2 is the out-of-range pointer
0xFF0 (4080), far beyond the 12 clusters of the volume. -/
def c7_img : Image := small_fat12_img [240, 255, 255, 240, 15, 0] []

/-- A 32-byte long-name fragment for `hello` with the given order byte, the
given checksum byte and the terminator inside `name2`. -/
def long_entry_bytes (order checksum : Nat) : List Nat :=
  [order,
   104, 0, 101, 0, 108, 0, 108, 0, 111, 0,
   15,
   0,
   checksum,
   0, 0, 255, 255, 255, 255, 255, 255, 255, 255, 255, 255,
   0, 0,
   255, 255, 255, 255]

/-- The short-name checksum of `HELLO   TXT`. -/
def c4_checksum : Nat := chksum [72, 69, 76, 76, 79, 32, 32, 32, 84, 88, 84]

/-- FAT12 image whose root holds a long-name fragment with the wrong order
byte 0x42 (lower six bits 2, but it is the only fragment) and a correct
checksum, followed by the `HELLO   TXT` short entry; FAT entry 2 is
end-of-chain. -/
def c4_img : Image :=
  small_fat12_img [240, 255, 255, 255, 15, 0]
    (long_entry_bytes 66 c4_checksum ++ c1_root_entry)

/-- The same image with the correct order byte 0x41. -/
def c4b_img : Image :=
  small_fat12_img [240, 255, 255, 255, 15, 0]
    (long_entry_bytes 65 c4_checksum ++ c1_root_entry)

/-- The flat FAT bytes of the `c5` witness volume: the FAT12 entry of the
odd cluster 341 occupies flat bytes 511 and 512, i.e. it straddles the
boundary between FAT sectors 0 and 1; the 16-bit value there is 0x1234. -/
def c5_L : Nat → Nat := fun i => if i = 511 then 52 else if i = 512 then 18 else 0

/-- BPB of the `c5` witness volume (FAT12, two FAT sectors). -/
def c5_bpb : FatBpb where
  bytes_per_sector := 512
  sectors_per_cluster := 1
  reserved_clusters := 1
  num_fats := 2
  root_entry_count := 16
  total_sectors_16 := 16
  media_descriptor := 240
  fat_size_16 := 2
  sectors_per_track := 18
  heads := 2
  hidden_sectors_count := 0
  total_sectors_32 := 0

/-- A FAT12 volume whose FAT sector map holds the two sectors of the flat
FAT `c5_L` at sectors 1 and 2. -/
def c5_fat : Fat where
  bs := { jump := [0, 0, 0], oem_name := [0, 0, 0, 0, 0, 0, 0, 0] }
  bpb := c5_bpb
  ebpb16 := some c1_ebpb16
  ebpb32 := none
  image := { bytes := fun _ => 0, size := 0 }
  fat := fun s =>
    if 1 ≤ s ∧ s < 3 then
      some { byte := fun j => c5_L ((s - 1) * 512 + j), len := 512 }
    else none
  dir_cache := fun _ => none
  inode_cache := fun _ => none
  fat_type := FatType.Fat12

/-- A short entry whose 8.3 name is `A` with extension ` BC`: the extension
field is not all pads, but its first byte is a pad. -/
def c8_entry : FatDirectoryEntry :=
  { c1_short_entry with
    name := [65, 32, 32, 32, 32, 32, 32, 32, 32, 66, 67] }

/-- A short entry whose 8.3 name is `TEST    TXT`. -/
def c8_test_entry : FatDirectoryEntry :=
  { c1_short_entry with
    name := [84, 69, 83, 84, 32, 32, 32, 32, 84, 88, 84] }

/-- A short entry whose 8.3 name is `FOO` with a blank extension. -/
def c8_foo_entry : FatDirectoryEntry :=
  { c1_short_entry with
    name := [70, 79, 79, 32, 32, 32, 32, 32, 32, 32, 32] }

/-- A short entry whose name starts with the 0x05 marker byte. -/
def c8_e5_entry : FatDirectoryEntry :=
  { c1_short_entry with
    name := [5, 66, 67, 32, 32, 32, 32, 32, 32, 32, 32] }

/-- A single long-name fragment (order 0x41, checksum irrelevant here) whose
code units are `h`, the 0x0000 terminator, and 0xFFFF padding. -/
def c10_long : FatLongDirectoryEntry where
  order := 65
  name1 := [104, 0, 65535, 65535, 65535]
  attr := 15
  dir_type := 0
  checksum := 0
  name2 := [65535, 65535, 65535, 65535, 65535, 65535]
  first_cluster_low := 0
  name3 := [65535, 65535]

/-- A single long-name fragment with no 0x0000 terminator: all 13 code
units are used. -/
def c10_long_full : FatLongDirectoryEntry where
  order := 65
  name1 := [104, 105, 106, 107, 108]
  attr := 15
  dir_type := 0
  checksum := 0
  name2 := [109, 110, 111, 112, 113, 114]
  first_cluster_low := 0
  name3 := [115, 116]

/-- Strip trailing 0x20 pad bytes (the wording of the specification). -/
def rstrip_pad (l : List Nat) : List Nat :=
  (l.reverse.dropWhile (fun c => c = 32)).reverse

/-- The presentable short name as the (amended) specification words it:
first base byte (0x05 rewritten to 0xE5), base bytes 2-8 with trailing pads
removed, then — whenever the first extension byte is not a pad — a dot and
the three extension bytes with trailing pads removed. -/
def short_name_spec (nm : List Nat) : List Nat :=
  (if nm.getD 0 0 = 5 then 229 else nm.getD 0 0) ::
    (rstrip_pad ((nm.drop 1).take 7) ++
      (if ((nm.drop 8).take 3).getD 0 0 ≠ 32 then
        46 :: rstrip_pad ((nm.drop 8).take 3)
       else []))

/-- The `c3` volume right after `read_reserved`: FAT12, first data sector 4,
sectors 0-3 preloaded. -/
def c3_fat : Fat where
  bs := { jump := [235, 60, 144],
          oem_name := [77, 83, 68, 79, 83, 53, 46, 48] }
  bpb := { bytes_per_sector := 512, sectors_per_cluster := 1,
           reserved_clusters := 1, num_fats := 2, root_entry_count := 16,
           total_sectors_16 := 16, media_descriptor := 240, fat_size_16 := 1,
           sectors_per_track := 18, heads := 2, hidden_sectors_count := 0,
           total_sectors_32 := 0 }
  ebpb16 := some c1_ebpb16
  ebpb32 := none
  image := c3_img
  fat := fun s =>
    if s < 4 then
      some { byte := fun j => c3_img.bytes (s * 512 + j) % 256, len := 512 }
    else none
  dir_cache := fun _ => none
  inode_cache := fun _ => none
  fat_type := FatType.Fat12

/-- The `c3` volume after mounting (its root directory is empty). -/
def c3_mounted : Fat :=
  { c3_fat with dir_cache := fun i => if i = 0 then some [] else none }

/-- The `c7` volume right after `read_reserved` (same geometry as `c3`, FAT
entry 2 out of range). -/
def c7_fat : Fat :=
  { c3_fat with
    image := c7_img,
    fat := fun s =>
      if s < 4 then
        some { byte := fun j => c7_img.bytes (s * 512 + j) % 256, len := 512 }
      else none }

/-- The `c7` volume after mounting (its root directory is empty). -/
def c7_mounted : Fat :=
  { c7_fat with dir_cache := fun i => if i = 0 then some [] else none }

/-- The invariant behind claim C9: every parent recorded in the
inode-to-parent map is a key of the directory cache. -/
def CacheInv (fat : Fat) : Prop :=
  ∀ c p, fat.inode_cache c = some p → (fat.dir_cache p).isSome = true

set_option maxRecDepth 1000000

lemma c1_reserved_eq : read_reserved c1_img = some c1_fat := rfl

lemma c1_root_eq : read_root_dir 100 c1_fat = some c1_mounted := rfl

lemma c1_mount_eq : mount_volume 100 c1_img = some c1_mounted := by
  show (read_reserved c1_img).bind (fun fat => read_root_dir 100 fat)
    = some c1_mounted
  rw [c1_reserved_eq]
  exact c1_root_eq

/-- C1 (amended): on the seed FAT12 floppy, mounting succeeds,
`list_directory(0)` lists exactly one container named `HELLO.TXT`, and
`get_data(2, 0, 13)` is the 13 bytes of `Hello, world!`; but `get_data`
clamps at the end of the cluster-aligned chain content (512 bytes), not at
the 13-byte file size, so `get_data(2, 5, 100)` is the 100 bytes starting
at offset 5 of the cluster: `, world!` followed by 92 zero pad bytes. -/
theorem c1_seed_floppy_amended :
    c1_mount.isSome = true ∧
    c1_names = some [[72, 69, 76, 76, 79, 46, 84, 88, 84]] ∧
    c1_read 0 13 = some c1_file_bytes ∧
    c1_read 5 100 =
      some ([44, 32, 119, 111, 114, 108, 100, 33] ++ List.replicate 92 0) := by
  refine ⟨?_, ?_, ?_, ?_⟩ <;>
    simp only [c1_mount, c1_names, c1_read, c1_mount_eq] <;> decide

/-- C1 counterexample: on the seed image `get_data(2, 5, 100)` does not
return the 8 bytes `, world!` (it returns 100 bytes). -/
theorem c1_seed_floppy_counterexample :
    c1_read 5 100 ≠ some [44, 32, 119, 111, 114, 108, 100, 33] := by
  simp only [c1_read, c1_mount, c1_mount_eq]
  decide

lemma c2_reserved_eq : read_reserved c2_img = some c2_fat := rfl

lemma c2_root_eq : read_root_dir 100 c2_fat = some c2_mounted := rfl

lemma c2_mount_eq : mount_volume 100 c2_img = some c2_mounted := by
  show (read_reserved c2_img).bind (fun fat => read_root_dir 100 fat)
    = some c2_mounted
  rw [c2_reserved_eq]
  exact c2_root_eq

/-- C2: on a mounted FAT32 volume whose EBPB flags word is 0x0081 (bit 7
set: mirroring disabled; bits 0-3: active FAT 1), `determine_fat_entry_offset`
nevertheless selects the primary FAT bank: for cluster 2 it returns FAT
sector 1 (reserved + 0) instead of 521 (advanced by fat_size 520), and the
FAT read returns the bank-1 value 0x0FFFFFFF while bank 2 holds 3.  The code
tests bit 8 (`flags & 0x0100`) and bits 12-15 rather than bit 7 and bits
0-3. -/
theorem c2_fat32_active_fat_bug :
    mount_volume 100 c2_img = some c2_mounted ∧
    c2_ebpb32.flags = 129 ∧
    determine_fat_entry_offset c2_mounted 2 = some (1, 8) ∧
    fat_entry_of c2_mounted 2 = some 268435455 ∧
    read_fat_entry c2_mounted 2 521 8 = some 3 :=
  ⟨c2_mount_eq, by decide, by decide, by decide, by decide⟩

lemma c3_reserved_eq : read_reserved c3_img = some c3_fat := rfl

lemma c3_root_eq : read_root_dir 100 c3_fat = some c3_mounted := rfl

lemma c3_mount_eq : mount_volume 100 c3_img = some c3_mounted := by
  show (read_reserved c3_img).bind (fun fat => read_root_dir 100 fat)
    = some c3_mounted
  rw [c3_reserved_eq]
  exact c3_root_eq

/-- C3: on the mounted `c3` FAT12 volume the allocated chain from cluster 2
is 2 → 3 → end of chain (entries 3 and 0xFFF), so `read_file_full(2)` reads
2 clusters = 1024 bytes; but `file_cluster_count(2)` passes the chain-start
cluster (2, even) instead of the current cluster (3, odd) to
`read_fat_entry`, mis-decodes entry 3 as 0xFF0 = 4080, follows it to FAT
sector 12 — absent from the preloaded map — and panics, so the count is not
1024 / (1 × 512) = 2. -/
theorem c3_count_vs_read_bug :
    mount_volume 100 c3_img = some c3_mounted ∧
    fat_entry_of c3_mounted 2 = some 3 ∧
    fat_entry_of c3_mounted 3 = some 4095 ∧
    read_fat_entry c3_mounted 2 1 4 = some 4080 ∧
    file_cluster_count 100 c3_mounted 2 = none ∧
    (read_file_full 100 c3_mounted 2).map Bytes.len = some 1024 :=
  ⟨c3_mount_eq, by decide, by decide, by decide, by decide, by decide⟩

/-- C4: the long-name fragment of the `c4` image has order byte 0x42 (lower
six bits 2, though it is the only pending fragment, so the backward index is
1) and a correct checksum.  The claimed order check would discard it and
fall back to the short name `HELLO.TXT`; instead the decoder tests
`attr & n == 0` (with `attr` always 0x0F), accepts the fragment, and panics
while placing its code units at offset (2−1)×13 of the 13-unit name buffer —
mounting fails.  With the correct order byte 0x41 the same image mounts and
yields the long name `hello`. -/
theorem c4_longname_order_check_bug :
    (FatLongDirectoryEntry.ofBytes (long_entry_bytes 66 c4_checksum)).order
        &&& 63 = 2 ∧
    (FatLongDirectoryEntry.ofBytes (long_entry_bytes 66 c4_checksum)).checksum
        = chksum [72, 69, 76, 76, 79, 32, 32, 32, 84, 88, 84] ∧
    (mount_volume 100 c4_img).isNone = true ∧
    (mount_volume 100 c4b_img).bind (fun f => (f.dir_cache 0).map
        (List.map FatDirectoryEntryContainer.cached_name))
      = some [[104, 101, 108, 108, 111]] :=
  ⟨by decide, by decide, by decide, by decide⟩

lemma c7_reserved_eq : read_reserved c7_img = some c7_fat := rfl

lemma c7_root_eq : read_root_dir 100 c7_fat = some c7_mounted := rfl

lemma c7_mount_eq : mount_volume 100 c7_img = some c7_mounted := by
  show (read_reserved c7_img).bind (fun fat => read_root_dir 100 fat)
    = some c7_mounted
  rw [c7_reserved_eq]
  exact c7_root_eq

/-- C7 counterexample: the mounted `c7` volume has 12 clusters, yet the FAT
entry of cluster 2 is 4080 — far outside [2, 13] — and chain traversal does
not treat it as end of chain: `read_file_full(2)` follows it to cluster
4080, whose first sector 4082 lies beyond the 16-sector image, and aborts
(panics) instead of returning the single cluster. -/
theorem c7_out_of_range_counterexample :
    mount_volume 100 c7_img = some c7_mounted ∧
    (determine_fat_type c7_mounted).map Prod.fst = some 12 ∧
    fat_entry_of c7_mounted 2 = some 4080 ∧
    (read_file_full 100 c7_mounted 2).isNone = true :=
  ⟨c7_mount_eq, by decide, by decide, by decide⟩

/-- C7 (amended): chain traversal terminates exactly on FAT entries that are
0 or at or above the type's end-of-chain sentinel.  Any other entry — in
particular an out-of-range pointer below the sentinel — is followed as a
next-cluster pointer (`read_data` hands it on), and traversal may then abort:
on the mounted `c7` volume the out-of-range entry 4080 makes
`read_file_full(2)` panic. -/
theorem c7_out_of_range_amended :
    (∀ (fat : Fat) (c e : Nat) (b : Bytes),
      c ≠ 0 →
      (first_sector_of_cluster fat c).bind (read_cluster fat) = some b →
      fat_entry_of fat c = some e →
      read_data fat c =
        some (b, if is_eof fat e || e = 0 then none else some e)) ∧
    (read_file_full 100 c7_mounted 2).isNone = true := by
  constructor
  · intro fat c e b hc h1 h2
    obtain ⟨sn, hsn, hrc⟩ := Option.bind_eq_some.mp h1
    obtain ⟨so, hso, hre⟩ := Option.bind_eq_some.mp h2
    simp only [read_data, if_neg hc, hsn, Option.some_bind, hrc, hso, hre,
      Option.map_some']
  · decide

/-- Witness for the amended C7 theorem: on the mounted `c7` volume the
out-of-range entry 4080 of cluster 2 is handed on as a next cluster. -/
theorem c7_out_of_range_amended_witness :
    (read_data c7_mounted 2).map Prod.snd = some (some 4080) := by
  have hb : ((first_sector_of_cluster c7_mounted 2).bind
      (read_cluster c7_mounted)).isSome = true := by decide
  obtain ⟨b, hb'⟩ := Option.isSome_iff_exists.mp hb
  have h := c7_out_of_range_amended.1 c7_mounted 2 4080 b (by decide) hb'
    (by decide)
  rw [h]
  rfl

/-- C6: the detected FAT type is classified exactly by the cluster count
computed as (total_sectors − (reserved + num_fats × fat_size +
root_dir_sectors)) / sectors_per_cluster, with the thresholds 4085 and
65525; under the stated no-overflow side conditions the wrapping `u16`/`u32`
arithmetic of the code coincides with this plain formula. -/
theorem c6_fat_type_thresholds (fat : Fat) (fat_size total rds cc : Nat)
    (hbps : 0 < fat.bpb.bytes_per_sector)
    (hspc : 0 < fat.bpb.sectors_per_cluster)
    (hfs : calculate_fat_size fat = some fat_size)
    (htotal : total = if fat.bpb.total_sectors_16 ≠ 0 then
      fat.bpb.total_sectors_16 else fat.bpb.total_sectors_32)
    (hrds : rds = (fat.bpb.root_entry_count * 32
      + (fat.bpb.bytes_per_sector - 1)) / fat.bpb.bytes_per_sector)
    (hcc : cc = (total - (fat.bpb.reserved_clusters
      + fat.bpb.num_fats * fat_size + rds)) / fat.bpb.sectors_per_cluster)
    (hrec : fat.bpb.root_entry_count * 32 + (fat.bpb.bytes_per_sector - 1)
      < 65536)
    (hnf : fat.bpb.num_fats * fat_size < 4294967296)
    (htot : total < 4294967296)
    (hused : fat.bpb.reserved_clusters + fat.bpb.num_fats * fat_size + rds
      ≤ total) :
    determine_fat_type fat =
      some (cc, if cc < 4085 then FatType.Fat12
                else if cc < 65525 then FatType.Fat16 else FatType.Fat32) := by
  have hfs' : (if fat.bpb.fat_size_16 ≠ 0 then some fat.bpb.fat_size_16
      else fat.ebpb32.map Fat32Ebpb.fat_size_32) = some fat_size := hfs
  have hrds' : root_dir_sectors fat = some rds := by
    simp only [root_dir_sectors, if_neg hbps.ne', Nat.mod_eq_of_lt hrec, hrds]
  have hdata : (total + 4294967296
      - (fat.bpb.reserved_clusters
          + fat.bpb.num_fats * fat_size % 4294967296 + rds) % 4294967296)
        % 4294967296
      = total - (fat.bpb.reserved_clusters + fat.bpb.num_fats * fat_size
          + rds) := by
    rw [Nat.mod_eq_of_lt hnf]
    omega
  simp only [determine_fat_type, hrds', hfs', Option.some_bind, ← htotal,
    hdata, if_neg hspc.ne', ← hcc]

/-- Witness for C6: the seed floppy has cluster count
(2880 − (1 + 2×9 + 14)) / 1 = 2847 < 4085, hence FAT12. -/
theorem c6_fat_type_thresholds_witness :
    determine_fat_type c1_fat = some (2847, FatType.Fat12) := by
  have h := c6_fat_type_thresholds c1_fat 9 2880 14 2847 (by decide)
    (by decide) (by decide) (by decide) (by decide) (by decide) (by decide)
    (by decide) (by decide) (by decide)
  exact h.trans (by decide)

/-- C5: on a FAT12 volume whose FAT sector map holds the sectors of a flat
FAT byte array `L` (sector `reserved + k` holds flat bytes
`k·bps .. k·bps+bps−1`), the FAT entry of any cluster `c` whose entry fits
in the flat array is the little-endian `u16` at flat offset `c + c/2`,
right-shifted by 4 when `c` is odd and masked with 0x0FFF when `c` is even —
in particular, when the entry straddles a sector boundary
(`entry_offset = bps − 1`) the high byte comes from the first byte of the
next FAT sector. -/
theorem c5_fat12_entry_decode (fat : Fat) (L : Nat → Nat) (nsec c : Nat)
    (ht : fat.fat_type = FatType.Fat12)
    (hbps : 0 < fat.bpb.bytes_per_sector)
    (hmap : ∀ k, k < nsec → fat.fat (fat.bpb.reserved_clusters + k) =
      some { byte := fun j => L (k * fat.bpb.bytes_per_sector + j),
             len := fat.bpb.bytes_per_sector })
    (hc : c + c / 2 + 1 < nsec * fat.bpb.bytes_per_sector)
    (hns : nsec * fat.bpb.bytes_per_sector ≤ 4294967296)
    (hres : fat.bpb.reserved_clusters + nsec < 4294967296) :
    fat_entry_of fat c =
      some (if c % 2 = 1 then
              (L (c + c / 2) ||| L (c + c / 2 + 1) <<< 8) >>> 4
            else (L (c + c / 2) ||| L (c + c / 2 + 1) <<< 8) &&& 4095) := by
  set bps := fat.bpb.bytes_per_sector with hbps_def
  set res := fat.bpb.reserved_clusters with hres_def
  set off := c + c / 2 with hoff
  have h_off_lt : off < nsec * bps := by omega
  have h_off32 : off < 4294967296 := by omega
  have hq : off / bps < nsec := by
    rw [Nat.div_lt_iff_lt_mul hbps]
    omega
  have h_sec32 : res + off / bps < 4294967296 := by omega
  have h1 : determine_fat_entry_offset fat c =
      some (res + off / bps, off % bps) := by
    simp only [determine_fat_entry_offset, if_neg hbps.ne', ht,
      Nat.mod_eq_of_lt h_off32, Nat.mod_eq_of_lt h_sec32]
  have hBq := hmap (off / bps) hq
  have hr : off % bps < bps := Nat.mod_lt _ hbps
  have hsplit : off / bps * bps + off % bps = off := by
    rw [Nat.mul_comm]
    exact Nat.div_add_mod off bps
  rw [fat_entry_of, h1, Option.some_bind]
  simp only [read_fat_entry, hBq, Option.some_bind, ht]
  by_cases hsp : off % bps = bps - 1
  · have hq1m : (off / bps + 1) * bps = off + 1 := by
      have hd : (off / bps + 1) * bps = off / bps * bps + bps := by ring
      omega
    have hq1 : off / bps + 1 < nsec := by
      rw [← Nat.mul_lt_mul_right hbps, hq1m]
      omega
    have h_sec32' : res + off / bps + 1 < 4294967296 := by omega
    have hB1 : fat.fat ((res + off / bps + 1) % 4294967296) =
        some { byte := fun j => L ((off / bps + 1) * bps + j), len := bps } := by
      rw [Nat.mod_eq_of_lt h_sec32', Nat.add_assoc]
      exact hmap (off / bps + 1) hq1
    simp only [if_pos hsp, hB1, Option.some_bind, Bytes.get?, if_pos hr,
      if_pos hbps, Option.some_bind, Option.map_some']
    have e1 : off / bps * bps + off % bps = off := hsplit
    have e2 : (off / bps + 1) * bps + 0 = off + 1 := by omega
    rw [e1, e2]
    rcases Nat.mod_two_eq_zero_or_one c with hpar | hpar <;>
      simp [Nat.and_one_is_mod, hpar]
  · have hr1 : off % bps + 1 < bps := by omega
    simp only [if_neg hsp, Bytes.get?, if_pos hr, if_pos hr1,
      Option.some_bind, Option.map_some']
    have e1 : off / bps * bps + off % bps = off := hsplit
    have e2 : off / bps * bps + (off % bps + 1) = off + 1 := by omega
    rw [e1, e2]
    rcases Nat.mod_two_eq_zero_or_one c with hpar | hpar <;>
      simp [Nat.and_one_is_mod, hpar]

/-- Witness for C5: on `c5_fat` the entry of the odd cluster 341 sits at
flat offset 511 = bps − 1, straddling FAT sectors 1 and 2; the 16-bit value
0x1234 is reassembled from byte 0x34 of the first sector and byte 0x12 of
the second, and the odd-cluster shift yields 0x123 = 291. -/
theorem c5_fat12_entry_decode_witness : fat_entry_of c5_fat 341 = some 291 := by
  have hmap : ∀ k, k < 2 → c5_fat.fat (c5_fat.bpb.reserved_clusters + k) =
      some { byte := fun j => c5_L (k * c5_fat.bpb.bytes_per_sector + j),
             len := c5_fat.bpb.bytes_per_sector } := by
    intro k hk
    interval_cases k <;> rfl
  have h := c5_fat12_entry_decode c5_fat c5_L 2 341 rfl (by decide) hmap
    (by decide) (by decide) (by decide)
  exact h.trans (by decide)

lemma position_ne_none (m : List Nat) (h : position_ne 32 m = none) :
    m.dropWhile (fun c => c = 32) = [] := by
  induction m with
  | nil => rfl
  | cons a m' ih =>
    by_cases ha : a = 32
    · simp only [position_ne, ha, ne_eq, not_true_eq_false, if_false,
        Option.map_eq_none'] at h
      simp only [List.dropWhile, ha]
      simpa using ih h
    · simp [position_ne, ha] at h

lemma strip_eq_aux (m : List Nat) :
    m.reverse.take (match position_ne 32 m with
      | none => 0
      | some i => m.reverse.length - i)
    = (m.dropWhile (fun c => c = 32)).reverse := by
  induction m with
  | nil => rfl
  | cons a m' ih =>
    by_cases ha : a = 32
    · subst ha
      simp only [position_ne, ne_eq, not_true_eq_false, if_false]
      cases hp : position_ne 32 m' with
      | none =>
        simp [hp, position_ne_none m' hp]
      | some i =>
        rw [hp] at ih
        simp only [List.length_reverse] at ih
        have hle : m'.length - i ≤ m'.reverse.length := by
          simp [Nat.sub_le]
        have hlen : (32 :: m').reverse.length - (i + 1) = m'.length - i := by
          simp
        simp only [hp, Option.map_some']
        rw [hlen, List.reverse_cons, List.take_append_of_le_length hle, ih]
        simp
    · simp only [position_ne, ha, ne_eq, not_false_eq_true, if_true]
      rw [List.take_of_length_le (by simp)]
      simp [ha]

lemma strip_eq (l : List Nat) :
    l.take (match position_ne 32 l.reverse with
      | none => 0
      | some i => l.length - i) = rstrip_pad l := by
  have h := strip_eq_aux l.reverse
  rw [rstrip_pad]
  simpa using h

lemma ext_strip (e0 e1 e2 : Nat) (h0 : e0 ≠ 32) :
    rstrip_pad [e0, e1, e2] =
      e0 :: (if e2 ≠ 32 then [e1, e2]
             else if e1 ≠ 32 then [e1] else []) := by
  by_cases h2 : e2 = 32 <;> by_cases h1 : e1 = 32 <;>
    simp [rstrip_pad, h0, h1, h2]

lemma c8_core (nm : List Nat) (h : nm.length = 11) :
    parse_name_short_bytes nm = short_name_spec nm := by
  rcases nm with _ | ⟨a0, nm⟩; · simp at h
  rcases nm with _ | ⟨a1, nm⟩; · simp at h
  rcases nm with _ | ⟨a2, nm⟩; · simp at h
  rcases nm with _ | ⟨a3, nm⟩; · simp at h
  rcases nm with _ | ⟨a4, nm⟩; · simp at h
  rcases nm with _ | ⟨a5, nm⟩; · simp at h
  rcases nm with _ | ⟨a6, nm⟩; · simp at h
  rcases nm with _ | ⟨a7, nm⟩; · simp at h
  rcases nm with _ | ⟨a8, nm⟩; · simp at h
  rcases nm with _ | ⟨a9, nm⟩; · simp at h
  rcases nm with _ | ⟨a10, nm⟩; · simp at h
  rcases nm with _ | ⟨a11, nm⟩
  swap; · simp at h
  have hs := strip_eq [a1, a2, a3, a4, a5, a6, a7]
  simp only [parse_name_short_bytes, short_name_spec, List.drop_succ_cons,
    List.drop_zero, List.take_succ_cons, List.take_zero, List.getD]
  rw [hs]
  by_cases h8 : a8 = 32
  · simp [h8]
  · simp only [List.getD_cons_zero, ne_eq, h8, not_false_eq_true, if_true,
      ext_strip a8 a9 a10 h8]
    simp

/-- C8 (amended): for every short entry without long-name fragments, the
byte buffer from which the presentable name is decoded is: the first base
byte (0x05 rewritten to 0xE5), base bytes 2-8 with trailing 0x20 pads
removed, then — whenever the first extension byte is not 0x20 — a dot and
the three extension bytes with trailing pads removed; the presentable name
is its UTF-8 decoding.  In particular `TEST    TXT` presents as `TEST.TXT`
and `FOO        ` as `FOO`; for a leading 0x05 byte the rewritten 0xE5 makes
the buffer invalid UTF-8, so the string conversion panics. -/
theorem c8_short_name_amended :
    (∀ e : FatDirectoryEntry, e.name.length = 11 →
      parse_name e [] = utf8_decode (short_name_spec e.name)) ∧
    parse_name c8_test_entry [] = some [84, 69, 83, 84, 46, 84, 88, 84] ∧
    parse_name c8_foo_entry [] = some [70, 79, 79] ∧
    parse_name_short_bytes c8_e5_entry.name = [229, 66, 67] ∧
    parse_name c8_e5_entry [] = none := by
  refine ⟨?_, by decide, by decide, by decide, by decide⟩
  intro e h
  show utf8_decode (parse_name_short_bytes e.name) = _
  rw [c8_core e.name h]

/-- Witness for the amended C8 theorem at the `TEST    TXT` entry. -/
theorem c8_short_name_amended_witness :
    parse_name c8_test_entry [] = utf8_decode (short_name_spec
      c8_test_entry.name) :=
  c8_short_name_amended.1 c8_test_entry (by decide)

/-- C8 counterexample: the entry `A        BC` has an extension field that
is not entirely 0x20, yet its presentable name is just `A` — no dot and no
extension bytes are appended, because the code gates the extension on its
first byte only. -/
theorem c8_short_name_counterexample :
    c8_entry.name = [65, 32, 32, 32, 32, 32, 32, 32, 32, 66, 67] ∧
    parse_name c8_entry [] = some [65] ∧
    parse_name c8_entry [] ≠ some [65, 46, 66, 67] :=
  ⟨rfl, by decide, by decide⟩

lemma position_eq_none (x : Nat) (l : List Nat) :
    position_eq x l = none ↔ x ∉ l := by
  induction l with
  | nil => simp [position_eq]
  | cons a l' ih =>
    by_cases ha : a = x
    · simp [position_eq, ha]
    · simp only [position_eq, if_neg ha, Option.map_eq_none', ih,
        List.mem_cons, not_or]
      constructor
      · intro h
        exact ⟨fun hx => ha hx.symm, h⟩
      · intro h
        exact h.2

lemma position_eq_take (x : Nat) (l : List Nat) (i : Nat)
    (h : position_eq x l = some i) :
    l.take i = l.takeWhile (fun a => a ≠ x) := by
  induction l generalizing i with
  | nil => simp [position_eq] at h
  | cons a l' ih =>
    by_cases ha : a = x
    · simp only [position_eq, if_pos ha, Option.some.injEq] at h
      subst h
      simp [ha]
    · simp only [position_eq, if_neg ha, Option.map_eq_some'] at h
      obtain ⟨i', hi', rfl⟩ := h
      simp [List.take_succ_cons, ih i' hi', ha]

lemma replace_vec_section_go_length (s : Nat) :
    ∀ (a : List Nat) (index : Nat) (v w : List Nat),
      replace_vec_section_go s a index v = some w → w.length = v.length := by
  intro a
  induction a with
  | nil =>
    intro index v w h
    simp only [replace_vec_section_go, Option.some.injEq] at h
    rw [h]
  | cons c rest ih =>
    intro index v w h
    by_cases hlt : s + index < v.length
    · rw [replace_vec_section_go, if_pos hlt] at h
      have := ih (index + 1) _ w h
      simpa using this
    · rw [replace_vec_section_go, if_neg hlt] at h
      exact absurd h (by simp)

lemma replace_vec_section_length (v a : List Nat) (s : Nat) (w : List Nat)
    (h : replace_vec_section v a s = some w) : w.length = v.length :=
  replace_vec_section_go_length s a 0 v w h

lemma replace_vec_section_go_some (s : Nat) :
    ∀ (a : List Nat) (index : Nat) (v : List Nat),
      s + index + a.length ≤ v.length →
      ∃ w, replace_vec_section_go s a index v = some w ∧
        w.length = v.length := by
  intro a
  induction a with
  | nil =>
    intro index v _
    exact ⟨v, rfl, rfl⟩
  | cons c rest ih =>
    intro index v h
    simp only [List.length_cons] at h
    have hlt : s + index < v.length := by omega
    have hlen : (v.set (s + index) c).length = v.length :=
      List.length_set v _ c
    obtain ⟨w, hw, hwl⟩ := ih (index + 1) (v.set (s + index) c)
      (by rw [hlen]; omega)
    refine ⟨w, ?_, by rw [hwl, hlen]⟩
    rw [replace_vec_section_go, if_pos hlt]
    exact hw

set_option maxHeartbeats 2000000 in
lemma assemble_go_some :
    ∀ (les : List FatLongDirectoryEntry) (v : List Nat),
      (∀ e ∈ les, e.name1.length = 5 ∧ e.name2.length = 6 ∧
        e.name3.length = 2 ∧ 1 ≤ e.order &&& 191 ∧
        (e.order &&& 191) * 13 ≤ v.length) →
      (assemble_name_bytes_go les v).isSome = true := by
  intro les
  induction les with
  | nil =>
    intro v _
    rfl
  | cons e rest ih =>
    intro v h
    obtain ⟨hn1, hn2, hn3, ho1, ho2⟩ := h e (List.mem_cons_self e rest)
    have hord : e.order &&& 191 ≤ 191 := Nat.and_le_right
    simp only [assemble_name_bytes_go, replace_vec_section]
    generalize hgen : e.order &&& 191 = n at ho1 ho2 hord ⊢
    clear hgen
    have hoff : (n + 18446744073709551615) % 18446744073709551616 * 13
        % 18446744073709551616 = (n - 1) * 13 := by
      have hsub : (n + 18446744073709551615) % 18446744073709551616
          = n - 1 := by omega
      rw [hsub]
      exact Nat.mod_eq_of_lt (by omega)
    rw [hoff]
    clear hoff
    obtain ⟨v1, hv1, hl1⟩ := replace_vec_section_go_some
      ((n - 1) * 13) e.name1 0 v (by rw [hn1]; omega)
    obtain ⟨v2, hv2, hl2⟩ := replace_vec_section_go_some
      ((n - 1) * 13 + 5) e.name2 0 v1 (by rw [hn2, hl1]; omega)
    obtain ⟨v3, hv3, hl3⟩ := replace_vec_section_go_some
      ((n - 1) * 13 + 11) e.name3 0 v2 (by rw [hn3, hl2, hl1]; omega)
    rw [hv1, Option.some_bind, hv2, Option.some_bind, hv3, Option.some_bind]
    apply ih
    intro f hf
    obtain ⟨a1, a2, a3, a4, a5⟩ := h f (List.mem_cons_of_mem e hf)
    exact ⟨a1, a2, a3, a4, by rw [hl3, hl2, hl1]; exact a5⟩

lemma assemble_name_bytes_some (les : List FatLongDirectoryEntry)
    (h : ∀ e ∈ les, e.name1.length = 5 ∧ e.name2.length = 6 ∧
      e.name3.length = 2 ∧ 1 ≤ e.order &&& 191 ∧
      e.order &&& 191 ≤ les.length) :
    (assemble_name_bytes les).isSome = true := by
  apply assemble_go_some
  intro e he
  obtain ⟨h1, h2, h3, h4, h5⟩ := h e he
  refine ⟨h1, h2, h3, h4, ?_⟩
  rw [List.length_replicate]
  exact Nat.mul_le_mul_right 13 h5

lemma assemble_go_length (les : List FatLongDirectoryEntry) :
    ∀ v w, assemble_name_bytes_go les v = some w → w.length = v.length := by
  induction les with
  | nil =>
    intro v w h
    simp only [assemble_name_bytes_go, Option.some.injEq] at h
    rw [h]
  | cons e les' ih =>
    intro v w h
    simp only [assemble_name_bytes_go] at h
    obtain ⟨v1, hv1, h⟩ := Option.bind_eq_some.mp h
    obtain ⟨v2, hv2, h⟩ := Option.bind_eq_some.mp h
    obtain ⟨v3, hv3, h⟩ := Option.bind_eq_some.mp h
    rw [ih v3 w h, replace_vec_section_length _ _ _ _ hv3,
      replace_vec_section_length _ _ _ _ hv2,
      replace_vec_section_length _ _ _ _ hv1]

lemma assemble_length (les : List FatLongDirectoryEntry) (nb : List Nat)
    (h : assemble_name_bytes les = some nb) : nb.length = les.length * 13 := by
  have := assemble_go_length les _ _ h
  simpa using this

/-- C10: for every accepted short entry with a validated long-name sequence
of `n` fragments (each fragment carrying 5+6+2 code units and an in-range
fragment index `1 ≤ order & !0x40 ≤ n`), assembly succeeds and produces the
`13 × n` buffer `nb`, and the decoder searches `nb` for the first 0x0000
unit: when one is present the name is the decoded prefix before it, and when
none is present directory decoding panics (`position(..).unwrap()`) instead
of returning the full-length name. -/
theorem c10_longname_terminator (se : FatDirectoryEntry)
    (les : List FatLongDirectoryEntry)
    (h1 : les ≠ [])
    (hv : ∀ e ∈ les, e.name1.length = 5 ∧ e.name2.length = 6 ∧
      e.name3.length = 2 ∧ 1 ≤ e.order &&& 191 ∧
      e.order &&& 191 ≤ les.length) :
    ∃ nb, assemble_name_bytes les = some nb ∧
      nb.length = les.length * 13 ∧
      (0 ∈ nb → parse_name se les =
        some (decode_utf16 (nb.takeWhile (fun u => u ≠ 0)))) ∧
      (0 ∉ nb → parse_name se les = none) := by
  obtain ⟨nb, h2⟩ := Option.isSome_iff_exists.mp
    (assemble_name_bytes_some les hv)
  have hp : parse_name se les = (assemble_name_bytes les).bind
      fun name_bytes => (position_eq 0 name_bytes).map
        fun index => decode_utf16 (name_bytes.take index) := by
    cases les with
    | nil => exact absurd rfl h1
    | cons e l => rfl
  refine ⟨nb, h2, assemble_length les nb h2, ?_, ?_⟩
  · intro hmem
    cases hq : position_eq 0 nb with
    | none => exact absurd ((position_eq_none 0 nb).mp hq) (by simp [hmem])
    | some i =>
      rw [hp, h2, Option.some_bind, hq, Option.map_some',
        position_eq_take 0 nb i hq]
  · intro hmem
    rw [hp, h2, Option.some_bind, (position_eq_none 0 nb).mpr hmem]
    rfl

/-- Witness for C10: a fragment with a terminator decodes to the prefix
before it, and a fragment filling all 13 units panics. -/
theorem c10_longname_terminator_witness :
    parse_name c1_short_entry [c10_long] = some [104] ∧
    parse_name c1_short_entry [c10_long_full] = none := by
  constructor
  · obtain ⟨nb, hnb, _, hsome, _⟩ := c10_longname_terminator c1_short_entry
      [c10_long] (by decide) (by decide)
    have hval : assemble_name_bytes [c10_long] =
        some [104, 0, 65535, 65535, 65535, 65535, 65535, 65535, 65535,
          65535, 65535, 65535, 65535] := by decide
    rw [hval, Option.some.injEq] at hnb
    subst hnb
    exact (hsome (by decide)).trans (by decide)
  · obtain ⟨nb, hnb, _, _, hnone⟩ := c10_longname_terminator c1_short_entry
      [c10_long_full] (by decide) (by decide)
    have hval : assemble_name_bytes [c10_long_full] =
        some [104, 105, 106, 107, 108, 109, 110, 111, 112, 113, 114,
          115, 116] := by decide
    rw [hval, Option.some.injEq] at hnb
    subst hnb
    exact hnone (by decide)

lemma inode_fold_lookup (entries : List FatDirectoryEntryContainer)
    (inode : Nat) (ic : Nat → Option Nat) (c p : Nat)
    (h : (entries.foldl
        (fun ic e => fun c' =>
          if c' = e.cluster_number then some inode else ic c') ic) c
      = some p) :
    p = inode ∨ ic c = some p := by
  induction entries generalizing ic with
  | nil => exact Or.inr h
  | cons e es ih =>
    rcases ih _ h with h1 | h1
    · exact Or.inl h1
    · dsimp only at h1
      by_cases hc : c = e.cluster_number
      · rw [if_pos hc, Option.some.injEq] at h1
        exact Or.inl h1.symm
      · rw [if_neg hc] at h1
        exact Or.inr h1

lemma read_dir_chain_inv (fuel : Nat) (fat : Fat) (inode : Nat)
    (sector : Bytes) (start : Nat) (fat' : Fat)
    (h : read_dir_chain fuel fat inode sector start = some fat')
    (hinv : CacheInv fat) : CacheInv fat' := by
  simp only [read_dir_chain, Option.map_eq_some'] at h
  obtain ⟨entries, _, rfl⟩ := h
  intro c p hcp
  rcases inode_fold_lookup entries inode fat.inode_cache c p hcp with rfl | hold
  · simp
  · by_cases hp : p = inode
    · simp [hp]
    · simp only [if_neg hp]
      exact hinv c p hold

lemma get_dir_inv (fuel : Nat) (fat : Fat) (inode : Nat) (fat' : Fat)
    (h : get_dir fuel fat inode = some fat') (hinv : CacheInv fat) :
    CacheInv fat' := by
  simp only [get_dir] at h
  by_cases hc : (fat.dir_cache inode).isSome = true
  · rw [if_pos hc, Option.some.injEq] at h
    rw [← h]
    exact hinv
  · rw [if_neg hc] at h
    obtain ⟨dir_file, _, h2⟩ := Option.bind_eq_some.mp h
    exact read_dir_chain_inv fuel fat inode dir_file 0 fat' h2 hinv

lemma apply_op_inv (fuel : Nat) (fat : Fat) (op : FatOp) (fat' : Fat)
    (h : apply_op fuel fat op = some fat') (hinv : CacheInv fat) :
    CacheInv fat' := by
  cases op with
  | list_dir ino =>
    simp only [apply_op, list_directory, Option.map_map,
      Option.map_eq_some'] at h
    obtain ⟨f1, hf1, rfl⟩ := h
    exact get_dir_inv fuel fat ino f1 hf1 hinv
  | look_up p n =>
    simp only [apply_op, lookup, Option.map_map, Option.map_eq_some'] at h
    obtain ⟨f1, hf1, rfl⟩ := h
    exact get_dir_inv fuel fat p f1 hf1 hinv
  | read_file ino off sz =>
    simp only [apply_op, Option.map_eq_some'] at h
    obtain ⟨_, _, rfl⟩ := h
    exact hinv
  | stat ino =>
    simp only [apply_op, Option.map_eq_some'] at h
    obtain ⟨_, _, rfl⟩ := h
    exact hinv

lemma run_ops_inv (fuel : Nat) :
    ∀ (ops : List FatOp) (fat fat' : Fat),
      run_ops fuel fat ops = some fat' → CacheInv fat → CacheInv fat' := by
  intro ops
  induction ops with
  | nil =>
    intro fat fat' h hinv
    simp only [run_ops, Option.some.injEq] at h
    rw [← h]
    exact hinv
  | cons op ops' ih =>
    intro fat fat' h hinv
    simp only [run_ops] at h
    obtain ⟨f1, hf1, h2⟩ := Option.bind_eq_some.mp h
    exact ih f1 fat' h2 (apply_op_inv fuel fat op f1 hf1 hinv)

lemma if_none_eq_some {α : Type} {P : Prop} [Decidable P] {X : Option α}
    {y : α} (h : (if P then none else X) = some y) : X = some y := by
  by_cases hP : P
  · rw [if_pos hP] at h
    exact absurd h (by simp)
  · rwa [if_neg hP] at h

lemma read_reserved_caches (img : Image) (fat0 : Fat)
    (h : read_reserved img = some fat0) :
    fat0.inode_cache = (fun _ => none) ∧ fat0.dir_cache = (fun _ => none) := by
  simp only [read_reserved] at h
  replace h := if_none_eq_some h
  obtain ⟨buf, hbuf, h⟩ := Option.bind_eq_some.mp h
  try dsimp only at h
  replace h := if_none_eq_some h
  obtain ⟨ct, hct, h⟩ := Option.bind_eq_some.mp h
  try dsimp only at h
  replace h := if_none_eq_some h
  obtain ⟨fsoc2, hf, h⟩ := Option.bind_eq_some.mp h
  try dsimp only at h
  replace h := if_none_eq_some h
  rw [Option.some.injEq] at h
  subst h
  exact ⟨rfl, rfl⟩

lemma read_root_dir_inv (fuel : Nat) (fat : Fat) (fat' : Fat)
    (h : read_root_dir fuel fat = some fat') (hinv : CacheInv fat) :
    CacheInv fat' := by
  simp only [read_root_dir] at h
  split at h
  · obtain ⟨e, _, h⟩ := Option.bind_eq_some.mp h
    obtain ⟨root_dir, _, h⟩ := Option.bind_eq_some.mp h
    exact read_dir_chain_inv fuel fat e.root_cluster root_dir 0 fat' h hinv
  · obtain ⟨cnt, _, h⟩ := Option.bind_eq_some.mp h
    obtain ⟨root_dir, _, h⟩ := Option.bind_eq_some.mp h
    exact read_dir_chain_inv fuel fat 0 root_dir 0 fat' h hinv

lemma mount_inv (fuel : Nat) (img : Image) (fat0 : Fat)
    (h : mount_volume fuel img = some fat0) : CacheInv fat0 := by
  obtain ⟨f1, h1, h2⟩ := Option.bind_eq_some.mp h
  have hc := read_reserved_caches img f1 h1
  have hinv1 : CacheInv f1 := by
    intro c p hcp
    rw [hc.1] at hcp
    exact absurd hcp (by simp)
  exact read_root_dir_inv fuel f1 fat0 h2 hinv1

/-- C9: starting from any mounted volume and running any sequence of public
operations, every parent recorded in the inode-to-parent map is a key of the
directory cache (they are always inserted together by `read_dir_chain`), and
consequently `get_inode` never panics on its internal directory-cache
`unwrap`, for any inode whatsoever. -/
theorem c9_inode_parent_cache (fuel : Nat) (img : Image) (ops : List FatOp)
    (fat0 fat' : Fat) (hmount : mount_volume fuel img = some fat0)
    (hrun : run_ops fuel fat0 ops = some fat') :
    CacheInv fat' ∧ ∀ ino, (get_inode fat' ino).isSome = true := by
  have h0 : CacheInv fat0 := mount_inv fuel img fat0 hmount
  have h1 : CacheInv fat' := run_ops_inv fuel ops fat0 fat' hrun h0
  refine ⟨h1, ?_⟩
  intro ino
  cases hic : fat'.inode_cache ino with
  | none => simp [get_inode, hic]
  | some p =>
    obtain ⟨children, hch⟩ := Option.isSome_iff_exists.mp (h1 ino p hic)
    simp [get_inode, hic, hch]

/-- Witness for C9 on the seed floppy with a three-operation run. -/
theorem c9_inode_parent_cache_witness :
    ∃ fat', run_ops 100 c1_mounted
        [FatOp.list_dir 0, FatOp.read_file 2 0 13, FatOp.stat 2]
      = some fat' ∧ (get_inode fat' 2).isSome = true := by
  have hs : (run_ops 100 c1_mounted
      [FatOp.list_dir 0, FatOp.read_file 2 0 13, FatOp.stat 2]).isSome
        = true := by decide
  obtain ⟨fat', hrun⟩ := Option.isSome_iff_exists.mp hs
  exact ⟨fat', hrun,
    (c9_inode_parent_cache 100 c1_img
      [FatOp.list_dir 0, FatOp.read_file 2 0 13, FatOp.stat 2]
      c1_mounted fat' c1_mount_eq hrun).2 2⟩
